import Mathlib

/-!
Shallow embedding of `src/main.rs` of the `vrc_sa_node` repository: a bridge
from a Bluetooth Low-Energy heart-rate peripheral to OSC datagrams.

Modelling conventions:
* Bluetooth addresses (`BDAddr`) and characteristic UUIDs are natural numbers.
* Byte values are `Nat` (the code only reads single `u8` bytes).
* The `f32` value sent in the OSC message is modelled as an exact rational.
* Asynchronous waiting is modelled by feeding the loop an explicit event
  (`Ok(Some(data))`, `Ok(None)`, or `Err(Elapsed)` from `tokio::time::timeout`).
* Unbounded `loop`s (`scan_for_peripheral`'s polling loop, the interactive
  selection loop, the connect-retry `while`) are modelled with a fuel
  parameter; a `none` result means "the loop has not terminated within
  `fuel` iterations", never an error.
* A Rust `panic!` (out-of-bounds index, `.unwrap()` on `None`, `.expect`)
  and an error propagated by `?` are both modelled as explicit outcomes,
  with distinct constructors so that the two kinds of failure stay apart.
-/

namespace VrcSaNode

/-- Bluetooth device address (`btleplug::api::BDAddr`), modelled as a natural
number; equality of addresses is what the code compares. -/
abbrev BDAddr := Nat

/-- Characteristic UUID, modelled as a natural number. -/
abbrev Uuid := Nat

/-- `BATTERY_LEVEL_CHARACTERISTIC_UUID` (line 24), an opaque constant. -/
def BATTERY_LEVEL_CHARACTERISTIC_UUID : Uuid := 0x2a19

/-- `HEART_RATE_CHARACTERISTIC_UUID` (line 25), an opaque constant. -/
def HEART_RATE_CHARACTERISTIC_UUID : Uuid := 0x2a37

/-- `btleplug::api::ValueNotification`: the characteristic UUID and the raw
payload bytes pushed by the peripheral. -/
structure ValueNotification where
  uuid : Uuid
  value : List Nat
deriving Repr, DecidableEq

/-- An OSC argument (`rosc::OscType`).  The program only ever builds
`OscType::Float`; the `f32` is modelled as an exact rational number. -/
inductive OscType where
  | float (x : ℚ)
deriving Repr, DecidableEq

/-- `rosc::OscMessage`: an address pattern plus a list of arguments. -/
structure OscMessage where
  addr : String
  args : List OscType
deriving Repr, DecidableEq

/-- A remote peripheral as the adapter reports it, together with an oracle
describing how its fallible operations behave in this run:
* `address` — the stable hardware address (`peripheral.address()`; btleplug
  guarantees `properties().address` is the same value, so one field serves
  both call sites);
* `localName` — the advertised display name, if any;
* `propsErr` / `propsNone` — whether `peripheral.properties()` returns
  `Err(..)` resp. `Ok(None)`;
* `connectOk k` — whether the k-th `peripheral.connect()` attempt succeeds;
* `discoverOk` — whether `discover_services()` succeeds;
* `characteristics` — the UUIDs exposed after service discovery;
* `readOk` / `batteryBytes` — whether reading the battery characteristic
  succeeds, and the bytes it returns;
* `subscribeOk` — whether `subscribe()` succeeds;
* `notificationsOk` — whether obtaining the notification stream succeeds. -/
structure Peripheral where
  address : BDAddr
  localName : Option String
  propsErr : Bool
  propsNone : Bool
  connectOk : Nat → Bool
  discoverOk : Bool
  characteristics : List Uuid
  readOk : Bool
  batteryBytes : List Nat
  subscribeOk : Bool
  notificationsOk : Bool

/-- `ConnectedPeripheral` (lines 232-236): the session state main's loop
operates on.  The live stream handle is modelled by the events fed to
`mainLoopStep` rather than stored here. -/
structure ConnectedPeripheral where
  address : BDAddr
  name : String
deriving Repr, DecidableEq

/-- The Bluetooth adapter together with the environment of one run:
* `visible t` — what `adapter.peripherals()` reports at the t-th poll of
  `scan_for_peripheral`'s loop (one poll per 1-second sleep);
* `scans i` — what `adapter.peripherals()` reports after the i-th 1-second
  scan of `interactive_peripheral_scan`'s loop;
* `selections i` — the operator's menu choice in the i-th iteration of that
  loop. -/
structure AdapterModel where
  visible : Nat → List Peripheral
  scans : Nat → List Peripheral
  selections : Nat → Nat

/-! ## Discovery: `scan_for_peripheral` (lines 46-69) -/

/-- The polling `loop` of `scan_for_peripheral` (lines 53-63): each iteration
sleeps one time unit, then looks for a peripheral with the requested address
in the currently visible set.  `t` is the 0-based poll index, so the poll at
index `t` happens after `t + 1` elapsed time units.  Returns the elapsed time
together with the first matching peripheral, or `none` if no poll within
`fuel` iterations found a match (the loop is still running). -/
def scanPollLoop (visible : Nat → List Peripheral) (address : BDAddr) :
    Nat → Nat → Option (Nat × Peripheral)
  | _, 0 => none
  | t, fuel + 1 =>
    match (visible t).find? (fun p => p.address == address) with
    | some p => some (t + 1, p)
    | none => scanPollLoop visible address (t + 1) fuel

/-- What `scan_for_peripheral` hands back: the number of unit sleeps that
elapsed, the peripheral found, and whether the adapter is still scanning at
the moment of return (`stop_scan` runs between the loop break and the
return, line 64). -/
structure ScanOutcome where
  polls : Nat
  found : Peripheral
  scanningAtReturn : Bool

/-- `scan_for_peripheral` (lines 46-69): start a scan, poll the visible set
every time unit until a peripheral with the given address appears, stop the
scan, return the peripheral.  `none` means the loop has not found it yet. -/
def scan_for_peripheral (visible : Nat → List Peripheral) (address : BDAddr)
    (fuel : Nat) : Option ScanOutcome :=
  match scanPollLoop visible address 0 fuel with
  | none => none
  | some (t, p) => some { polls := t, found := p, scanningAtReturn := false }

/-! ## Interactive selection (lines 170-230) -/

/-- `get_peripheral_local_names` (lines 211-230): for each peripheral, its
properties' `local_name`; a properties error or absent properties yields
`none`. -/
def get_peripheral_local_names (peripherals : List Peripheral) :
    List (Option String) :=
  peripherals.map (fun p =>
    if p.propsErr || p.propsNone then none else p.localName)

/-- The menu built in lines 180-189: the literal `"[Scan again]"` entry
followed by one entry per peripheral, its local name or `"(Empty)"`. -/
def peripheral_selection_items (peripherals : List Peripheral) : List String :=
  "[Scan again]" ::
    (get_peripheral_local_names peripherals).map (fun n => n.getD "(Empty)")

/-- One iteration of `interactive_peripheral_scan`'s loop body
(lines 172-207) applied to the scan result and the operator's selection.
`none` means `continue` (rescan): the scan came back empty (line 175),
the operator chose entry 0, `"[Scan again]"` (line 196), or
`peripherals.get(selection - 1)` was out of range (line 206). -/
def interactiveScanStep (peripherals : List Peripheral) (selection : Nat) :
    Option Peripheral :=
  if peripherals.isEmpty then none
  else if selection == 0 then none
  else peripherals.get? (selection - 1)

/-- `interactive_peripheral_scan` (lines 170-209): iterate the loop body
over successive scans and operator selections, starting at iteration `i`,
for at most `fuel` iterations.  `none` means the loop is still running. -/
def interactive_peripheral_scan (scans : Nat → List Peripheral)
    (selections : Nat → Nat) : Nat → Nat → Option Peripheral
  | _, 0 => none
  | i, fuel + 1 =>
    match interactiveScanStep (scans i) (selections i) with
    | some p => some p
    | none => interactive_peripheral_scan scans selections (i + 1) fuel

/-! ## Connection manager: `connect_to_peripheral` (lines 238-294) -/

/-- The ways `connect_to_peripheral` can fail after a peripheral has been
selected.  Constructors whose name ends in `Panic` model a Rust panic
(`.unwrap()`, `.expect`, out-of-bounds index); the others model an error
propagated to the caller with `?`.  There is deliberately no constructor for
a failed `connect()` call: that failure is retried, never surfaced. -/
inductive ConnErr where
  | propsErr
  | propsNonePanic
  | discoverErr
  | missingBatteryPanic
  | readErr
  | batteryEmptyPanic
  | missingHeartRatePanic
  | subscribeErr
  | notificationsErr
deriving Repr, DecidableEq

/-- The `while peripheral.connect().await.is_err()` retry loop (lines
258-260): the index of the first successful attempt at or after attempt `k`,
or `none` if none of the next `fuel` attempts succeeds (the loop is still
retrying). -/
def firstConnectSuccess (ok : Nat → Bool) : Nat → Nat → Option Nat
  | _, 0 => none
  | k, fuel + 1 => if ok k then some k else firstConnectSuccess ok (k + 1) fuel

/-- Lines 248-293 of `connect_to_peripheral`: after the target peripheral has
been resolved, read its properties (`?` then `.unwrap()`), retry `connect`
until it succeeds, discover services, resolve the battery-level
characteristic (`.expect`), read the battery level (`?` then index `[0]`),
resolve the heart-rate characteristic (`.expect`), subscribe, and obtain the
notification stream.  `none` means the connect-retry loop is still running. -/
def setupSession (p : Peripheral) (fuel : Nat) :
    Option (Except ConnErr ConnectedPeripheral) :=
  if p.propsErr then some (.error .propsErr)
  else if p.propsNone then some (.error .propsNonePanic)
  else
    match firstConnectSuccess p.connectOk 0 fuel with
    | none => none
    | some _ =>
      if !p.discoverOk then some (.error .discoverErr)
      else
        match p.characteristics.find?
            (fun u => u == BATTERY_LEVEL_CHARACTERISTIC_UUID) with
        | none => some (.error .missingBatteryPanic)
        | some _ =>
          if !p.readOk then some (.error .readErr)
          else
            match p.batteryBytes.get? 0 with
            | none => some (.error .batteryEmptyPanic)
            | some _ =>
              match p.characteristics.find?
                  (fun u => u == HEART_RATE_CHARACTERISTIC_UUID) with
              | none => some (.error .missingHeartRatePanic)
              | some _ =>
                if !p.subscribeOk then some (.error .subscribeErr)
                else if !p.notificationsOk then
                  some (.error .notificationsErr)
                else
                  some (.ok { address := p.address,
                              name := p.localName.getD "(Empty)" })

/-- Lines 242-246: resolve the target to a peripheral, via
`scan_for_peripheral` when an address was supplied and via
`interactive_peripheral_scan` otherwise. -/
def selectPeripheral (a : AdapterModel) (maybeAddr : Option BDAddr)
    (fuel : Nat) : Option Peripheral :=
  match maybeAddr with
  | some addr => (scan_for_peripheral a.visible addr fuel).map (fun o => o.found)
  | none => interactive_peripheral_scan a.scans a.selections 0 fuel

/-- `connect_to_peripheral` (lines 238-294): resolve the target, then run the
session setup.  `none` means one of the unbounded loops is still running. -/
def connect_to_peripheral (a : AdapterModel) (maybeAddr : Option BDAddr)
    (fuel : Nat) : Option (Except ConnErr ConnectedPeripheral) :=
  match selectPeripheral a maybeAddr fuel with
  | none => none
  | some p => setupSession p fuel

/-! ## Notification pipeline: main's loop (lines 132-167) -/

/-- `u8::MAX`. -/
def U8_MAX : Nat := 255

/-- Line 139, `data.value[1]`: reading the beats-per-minute byte.  `none`
models the out-of-bounds panic on a payload shorter than 2 bytes. -/
def decodeBpm (value : List Nat) : Option Nat := value.get? 1

/-- Lines 140-144: the OSC message built for one decoded sample.  The `f32`
computation `f32::from(b) / f32::from(u8::MAX)` is modelled as the exact
rational `b / 255`. -/
def heartRateMessage (beats_per_minute : Nat) : OscMessage :=
  { addr := "/avatar/parameters/HeartRate",
    args := [OscType.float ((beats_per_minute : ℚ) / (U8_MAX : ℚ))] }

/-- The three outcomes of `timeout(threshold, stream.next()).await` that
main's `match` distinguishes: `Ok(Some(data))`, `Ok(None)`, and
`Err(Elapsed)`. -/
inductive StreamEvent where
  | notif (data : ValueNotification)
  | streamEnd
  | timedOut
deriving Repr

/-- The outcome of one iteration of main's loop:
* `panics` — the iteration aborted with an index-out-of-bounds panic
  at `data.value[1]`;
* `fatal e` — the reconnect call failed and `?` propagated the error out
  of `main`;
* `reconnecting` — the reconnect call's unbounded loops are still running
  within the given fuel;
* `next sent logged reconnects session` — the loop continues: the OSC
  messages sent this iteration, the beats-per-minute values appended to the
  CSV log, how many times `connect_to_peripheral` was invoked, and the
  session the next iteration will use. -/
inductive StepResult where
  | panics
  | fatal (e : ConnErr)
  | reconnecting
  | next (sent : List OscMessage) (logged : List Nat) (reconnects : Nat)
      (session : ConnectedPeripheral)
deriving Repr, DecidableEq

/-- One iteration of main's notification loop (lines 132-167), given the
event the `timeout`-wrapped `next()` produced:
* `Ok(Some(data))` — decode `data.value[1]` (panics when the payload is
  shorter than 2 bytes), build and send the normalized-float OSC message,
  append the sample to the CSV log, keep the session;
* `Ok(None)` — the empty arm `{}` (line 157): nothing happens, the session
  is kept;
* `Err(_)` — log the timeout and replace the session by
  `connect_to_peripheral(adapter, Some(connected_peripheral.address))`. -/
def mainLoopStep (a : AdapterModel) (session : ConnectedPeripheral)
    (ev : StreamEvent) (fuel : Nat) : StepResult :=
  match ev with
  | .notif data =>
    match decodeBpm data.value with
    | none => .panics
    | some b => .next [heartRateMessage b] [b] 0 session
  | .streamEnd => .next [] [] 0 session
  | .timedOut =>
    match connect_to_peripheral a (some session.address) fuel with
    | none => .reconnecting
    | some (.error e) => .fatal e
    | some (.ok s) => .next [] [] 1 s

/-! ## Peripheral-address argument handling (lines 122-126) -/

/-- `Result::or`: keep the first result when it is `Ok`, otherwise take the
second. -/
def exceptOr {ε α : Type} (x y : Except ε α) : Except ε α :=
  match x with
  | .ok v => .ok v
  | .error _ => y

/-- Lines 122-126 of `main`: if the user passed a peripheral address, try
the delimited parse, fall back to the undelimited parse (`Result::or`), and
keep a successful result (`.ok()`).  The two btleplug parsers are external
library code, so they are taken as parameters. -/
def maybe_peripheral_address (arg : Option String)
    (from_str_delim from_str_no_delim : String → Except String BDAddr) :
    Option BDAddr :=
  arg.bind (fun s =>
    (exceptOr (from_str_delim s) (from_str_no_delim s)).toOption)

/-! ## Concrete fixtures used by witnesses and counterexamples -/

/-- A fully well-behaved heart-rate peripheral at address 7. -/
def goodPeripheral : Peripheral :=
  { address := 7
    localName := some "HRM"
    propsErr := false
    propsNone := false
    connectOk := fun _ => true
    discoverOk := true
    characteristics := [BATTERY_LEVEL_CHARACTERISTIC_UUID,
                        HEART_RATE_CHARACTERISTIC_UUID]
    readOk := true
    batteryBytes := [90]
    subscribeOk := true
    notificationsOk := true }

/-- An adapter that always sees `goodPeripheral` and whose operator always
picks the first listed peripheral. -/
def goodAdapter : AdapterModel :=
  { visible := fun _ => [goodPeripheral]
    scans := fun _ => [goodPeripheral]
    selections := fun _ => 1 }

/-- An adapter that never sees any peripheral. -/
def emptyAdapter : AdapterModel :=
  { visible := fun _ => []
    scans := fun _ => []
    selections := fun _ => 0 }

/-- The session that connecting to `goodPeripheral` produces. -/
def session7 : ConnectedPeripheral := { address := 7, name := "HRM" }

/-- Like `goodPeripheral`, but `subscribe()` always fails; both required
characteristics are present. -/
def subscribeFailPeripheral : Peripheral :=
  { goodPeripheral with subscribeOk := false }

/-- Like `goodPeripheral`, but every `connect()` attempt fails. -/
def neverConnectsPeripheral : Peripheral :=
  { goodPeripheral with connectOk := fun _ => false }

/-- Like `goodPeripheral`, but the battery-level characteristic is absent. -/
def noBatteryPeripheral : Peripheral :=
  { goodPeripheral with characteristics := [HEART_RATE_CHARACTERISTIC_UUID] }

/-- Like `goodPeripheral`, but the heart-rate characteristic is absent. -/
def noHeartRatePeripheral : Peripheral :=
  { goodPeripheral with characteristics := [BATTERY_LEVEL_CHARACTERISTIC_UUID] }

/-! ## C5: decoding is exactly the second byte -/

/-- C5: for every payload of length at least 2 — that is, every payload of
the form `a :: b :: rest` — the decoded beats-per-minute value is exactly
the byte at index 1, independent of the first byte and of all later bytes. -/
theorem C5_decode_is_second_byte (a b : Nat) (rest : List Nat) :
    decodeBpm (a :: b :: rest) = some b := rfl

/-! ## C1: payloads shorter than 2 bytes -/

/-- C1 (code behaviour at the failing input): for every notification whose
payload is shorter than 2 bytes, the loop iteration does not discard the
sample and continue — it aborts with the index-out-of-bounds panic from
`data.value[1]` (line 139). -/
theorem C1_short_payload_panics (a : AdapterModel) (s : ConnectedPeripheral)
    (u : Uuid) (value : List Nat) (h : value.length < 2) (fuel : Nat) :
    mainLoopStep a s (.notif ⟨u, value⟩) fuel = .panics := by
  match value, h with
  | [], _ => rfl
  | [x], _ => rfl

/-- C1 witness: the panic at the concrete 1-byte payload `[0x4B]`. -/
theorem C1_short_payload_panics_witness :
    ([75] : List Nat).length < 2 ∧
      mainLoopStep emptyAdapter session7
        (.notif ⟨HEART_RATE_CHARACTERISTIC_UUID, [75]⟩) 1 = .panics :=
  ⟨by decide,
   C1_short_payload_panics emptyAdapter session7
     HEART_RATE_CHARACTERISTIC_UUID [75] (by decide) 1⟩

/-! ## C2: end of the notification stream -/

/-- C2 counterexample: at a concrete state, when the stream ends
(`Ok(None)`, line 157) the loop does not discard the session and obtain a
new one — it performs no reconnect (`reconnects = 0`) and keeps the very
same session. -/
theorem C2_stream_end_no_reconnect :
    mainLoopStep goodAdapter session7 .streamEnd 5 =
      .next [] [] 0 session7 := rfl

/-- C2 amended: when the notification stream ends, the pipeline ignores the
event — it sends nothing, logs nothing, triggers no reconnect, and continues
the loop with the unchanged session; reconnection is triggered only by the
timeout branch. -/
theorem C2_stream_end_ignored (a : AdapterModel) (s : ConnectedPeripheral)
    (fuel : Nat) :
    mainLoopStep a s .streamEnd fuel = .next [] [] 0 s := rfl

/-! ## C4: the forwarded OSC message -/

/-- C4: for every decoded beats-per-minute byte `b` (payload
`v0 :: b :: rest`), the loop iteration sends exactly one OSC message, whose
address is `/avatar/parameters/HeartRate` and whose single argument is the
float `b / 255`; at the payload `[0x00, 0x4B]` the argument is the float
`75 / 255`, which is within `0.001` of `0.294`. -/
theorem C4_continuous_forward (a : AdapterModel) (s : ConnectedPeripheral)
    (u : Uuid) (v0 b : Nat) (rest : List Nat) (fuel : Nat) :
    mainLoopStep a s (.notif ⟨u, v0 :: b :: rest⟩) fuel =
        .next [heartRateMessage b] [b] 0 s ∧
      (heartRateMessage b).addr = "/avatar/parameters/HeartRate" ∧
      (heartRateMessage b).args = [OscType.float ((b : ℚ) / 255)] ∧
      (heartRateMessage 75).args = [OscType.float ((75 : ℚ) / 255)] ∧
      |(75 : ℚ) / 255 - 294 / 1000| < 1 / 1000 := by
  refine ⟨rfl, rfl, ?_, ?_, by rw [abs_lt]; constructor <;> norm_num⟩
  · simp [heartRateMessage, U8_MAX]
  · norm_num [heartRateMessage, U8_MAX]

/-! ## Helper lemmas shared by several claims -/

/-- Any peripheral the polling loop returns has the requested address. -/
theorem scanPollLoop_some_address (visible : Nat → List Peripheral)
    (address : BDAddr) :
    ∀ fuel t tp p, scanPollLoop visible address t fuel = some (tp, p) →
      p.address = address := by
  intro fuel
  induction fuel with
  | zero => intro t tp p h; simp [scanPollLoop] at h
  | succ n ih =>
    intro t tp p h
    rw [scanPollLoop] at h
    rcases hf : (visible t).find? (fun q => q.address == address) with _ | q
    · rw [hf] at h
      exact ih (t + 1) tp p h
    · rw [hf] at h
      have hq := List.find?_some hf
      have hpq : p = q := by
        cases h; rfl
      rw [hpq]
      exact eq_of_beq hq


/-- A successful session setup returns exactly the selected peripheral's
address, and its local name (or the placeholder). -/
theorem setupSession_ok (p : Peripheral) (fuel : Nat) (s : ConnectedPeripheral)
    (h : setupSession p fuel = some (.ok s)) :
    s = { address := p.address, name := p.localName.getD "(Empty)" } := by
  unfold setupSession at h
  repeat' split at h
  all_goals simp_all

/-- A successful `connect_to_peripheral` with an explicit address returns a
session carrying exactly that address. -/
theorem connect_some_ok_address (a : AdapterModel) (addr : BDAddr)
    (fuel : Nat) (s : ConnectedPeripheral)
    (h : connect_to_peripheral a (some addr) fuel = some (.ok s)) :
    s.address = addr := by
  simp only [connect_to_peripheral, selectPeripheral] at h
  rcases hs : scan_for_peripheral a.visible addr fuel with _ | o
  · rw [hs] at h; simp at h
  · rw [hs] at h
    simp only [Option.map_some'] at h
    have hfound : o.found.address = addr := by
      unfold scan_for_peripheral at hs
      rcases hl : scanPollLoop a.visible addr 0 fuel with _ | tp
      · rw [hl] at hs; simp at hs
      · rw [hl] at hs
        simp only [Option.some.injEq] at hs
        have h2 := scanPollLoop_some_address a.visible addr fuel 0 tp.1 tp.2
          (by rw [hl])
        rw [← hs]
        exact h2
    have h3 := setupSession_ok o.found fuel s h
    rw [h3]
    exact hfound

/-! ## C7: reconnecting with a known address is idempotent on the address -/

/-- C7: for every session `s`, whenever connecting again with `s`'s address
succeeds, the resulting session's `address` field equals `s.address` (the
name is re-resolved from the peripheral's properties but nothing requires it
to differ). -/
theorem C7_reconnect_address_idempotent (a : AdapterModel)
    (s sNew : ConnectedPeripheral) (fuel : Nat)
    (h : connect_to_peripheral a (some s.address) fuel = some (.ok sNew)) :
    sNew.address = s.address :=
  connect_some_ok_address a s.address fuel sNew h

/-- C7 witness: reconnecting to `goodPeripheral`'s address from `session7`
yields `session7` again, whose address is unchanged. -/
theorem C7_reconnect_address_idempotent_witness :
    connect_to_peripheral goodAdapter (some session7.address) 1 =
        some (.ok session7) ∧
      session7.address = session7.address :=
  ⟨rfl, C7_reconnect_address_idempotent goodAdapter session7 session7 1 rfl⟩

/-! ## C3: the timeout branch triggers exactly one reconnect -/

/-- C3: when the timeout elapses with no notification, the loop iteration
invokes `connect_to_peripheral` exactly once, passing the current session's
known address (never the interactive prompt); it forwards nothing and logs
nothing in that iteration, so no sample is forwarded on the stale session
once the reconnect begins; the next iteration runs on the fresh session,
whose address equals the stale session's address. -/
theorem C3_timeout_one_reconnect (a : AdapterModel)
    (s sNew : ConnectedPeripheral) (fuel : Nat)
    (h : connect_to_peripheral a (some s.address) fuel = some (.ok sNew)) :
    mainLoopStep a s .timedOut fuel = .next [] [] 1 sNew ∧
      sNew.address = s.address := by
  constructor
  · unfold mainLoopStep
    rw [h]
  · exact connect_some_ok_address a s.address fuel sNew h

/-- C3 witness: a concrete timeout iteration at `session7` reconnects once,
sends nothing, and resumes on a session with the same address. -/
theorem C3_timeout_one_reconnect_witness :
    mainLoopStep goodAdapter session7 .timedOut 1 = .next [] [] 1 session7 ∧
      session7.address = session7.address :=
  C3_timeout_one_reconnect goodAdapter session7 session7 1 rfl

/-- If every connect attempt fails, the retry loop never terminates,
whatever the fuel. -/
theorem firstConnectSuccess_none (ok : Nat → Bool)
    (hall : ∀ k, ok k = false) :
    ∀ fuel t, firstConnectSuccess ok t fuel = none := by
  intro fuel
  induction fuel with
  | zero => intro t; rfl
  | succ n ih =>
    intro t
    rw [firstConnectSuccess, hall t]
    exact ih (t + 1)

/-- If some attempt in the fuel window succeeds, the retry loop terminates. -/
theorem firstConnectSuccess_isSome (ok : Nat → Bool) :
    ∀ fuel t j, t ≤ j → j < t + fuel → ok j = true →
      (firstConnectSuccess ok t fuel).isSome = true := by
  intro fuel
  induction fuel with
  | zero => intro t j h1 h2 _; omega
  | succ n ih =>
    intro t j h1 h2 hok
    rw [firstConnectSuccess]
    rcases ht : ok t with _ | _
    · have hne : t ≠ j := by
        intro he; rw [he, hok] at ht; cases ht
      exact ih (t + 1) j (by omega) (by omega) hok
    · rfl

/-! ## C6: connect retry and fatal errors -/

/-- C6 counterexample: a peripheral that exposes both required
characteristics but whose `subscribe()` call fails makes
`connect_to_peripheral`'s session setup fail fatally — so missing
characteristics are not the only fatal failures of the connect operation. -/
theorem C6_subscribe_failure_is_also_fatal :
    BATTERY_LEVEL_CHARACTERISTIC_UUID ∈ subscribeFailPeripheral.characteristics ∧
      HEART_RATE_CHARACTERISTIC_UUID ∈ subscribeFailPeripheral.characteristics ∧
      setupSession subscribeFailPeripheral 1 =
        some (.error .subscribeErr) := by
  refine ⟨?_, ?_, rfl⟩ <;> decide

/-- C6 amended: provided the properties read succeeds, (a) while every
connect attempt fails the connect loop keeps retrying — for every fuel the
operation is still running, never an error; (b) once a connect attempt
succeeds, a missing battery-level characteristic is a fatal error; (c) so is
a missing heart-rate characteristic.  (Fatal failure is however not limited
to missing characteristics: other session-setup errors, such as a failing
`subscribe()`, are fatal too.) -/
theorem C6_connect_retries_and_fatal_capability_errors (p : Peripheral)
    (fuel : Nat) (hpe : p.propsErr = false) (hpn : p.propsNone = false) :
    ((∀ k, p.connectOk k = false) → setupSession p fuel = none) ∧
      (∀ j, j < fuel → p.connectOk j = true → p.discoverOk = true →
        BATTERY_LEVEL_CHARACTERISTIC_UUID ∉ p.characteristics →
        setupSession p fuel = some (.error .missingBatteryPanic)) ∧
      (∀ j, j < fuel → p.connectOk j = true → p.discoverOk = true →
        BATTERY_LEVEL_CHARACTERISTIC_UUID ∈ p.characteristics →
        p.readOk = true → p.batteryBytes ≠ [] →
        HEART_RATE_CHARACTERISTIC_UUID ∉ p.characteristics →
        setupSession p fuel = some (.error .missingHeartRatePanic)) := by
  refine ⟨?_, ?_, ?_⟩
  · intro hall
    simp only [setupSession, hpe, hpn]
    rw [firstConnectSuccess_none p.connectOk hall fuel 0]
    rfl
  · intro j hj hok hdisc hmem
    have hsome := firstConnectSuccess_isSome p.connectOk fuel 0 j
      (Nat.zero_le j) (by omega) hok
    obtain ⟨j0, hj0⟩ := Option.isSome_iff_exists.mp hsome
    have hfind : p.characteristics.find?
        (fun u => u == BATTERY_LEVEL_CHARACTERISTIC_UUID) = none := by
      rw [List.find?_eq_none]
      intro x hx hbeq
      exact hmem (eq_of_beq hbeq ▸ hx)
    simp only [setupSession, hpe, hpn, hj0, hdisc, hfind]
    rfl
  · intro j hj hok hdisc hbat hread hbytes hmem
    have hsome := firstConnectSuccess_isSome p.connectOk fuel 0 j
      (Nat.zero_le j) (by omega) hok
    obtain ⟨j0, hj0⟩ := Option.isSome_iff_exists.mp hsome
    have hbfind : (p.characteristics.find?
        (fun u => u == BATTERY_LEVEL_CHARACTERISTIC_UUID)).isSome = true := by
      rw [List.find?_isSome]
      exact ⟨BATTERY_LEVEL_CHARACTERISTIC_UUID, hbat, by simp⟩
    obtain ⟨u0, hu0⟩ := Option.isSome_iff_exists.mp hbfind
    have hbyte : (p.batteryBytes.get? 0).isSome = true := by
      cases hb : p.batteryBytes with
      | nil => exact absurd hb hbytes
      | cons x xs => rfl
    obtain ⟨b0, hb0⟩ := Option.isSome_iff_exists.mp hbyte
    have hhfind : p.characteristics.find?
        (fun u => u == HEART_RATE_CHARACTERISTIC_UUID) = none := by
      rw [List.find?_eq_none]
      intro x hx hbeq
      exact hmem (eq_of_beq hbeq ▸ hx)
    simp only [setupSession, hpe, hpn, hj0, hdisc, hu0, hread, hb0, hhfind]
    rfl

/-- C6 witness: with `neverConnectsPeripheral` the connect loop is still
retrying after 5 units of fuel; `noBatteryPeripheral` and
`noHeartRatePeripheral` fail fatally with the corresponding missing
characteristic. -/
theorem C6_connect_retries_witness :
    setupSession neverConnectsPeripheral 5 = none ∧
      setupSession noBatteryPeripheral 5 =
        some (.error .missingBatteryPanic) ∧
      setupSession noHeartRatePeripheral 5 =
        some (.error .missingHeartRatePanic) :=
  ⟨(C6_connect_retries_and_fatal_capability_errors neverConnectsPeripheral 5
      rfl rfl).1 (fun _ => rfl),
   (C6_connect_retries_and_fatal_capability_errors noBatteryPeripheral 5
      rfl rfl).2.1 0 (by decide) rfl rfl (by decide),
   (C6_connect_retries_and_fatal_capability_errors noHeartRatePeripheral 5
      rfl rfl).2.2 0 (by decide) rfl rfl (by decide) rfl (by decide)
      (by decide)⟩

/-- If no visible set ever holds a peripheral with the requested address,
the polling loop never terminates, whatever the fuel. -/
theorem scanPollLoop_none (visible : Nat → List Peripheral) (address : BDAddr)
    (hall : ∀ u p, p ∈ visible u → p.address ≠ address) :
    ∀ fuel t, scanPollLoop visible address t fuel = none := by
  intro fuel
  induction fuel with
  | zero => intro t; rfl
  | succ n ih =>
    intro t
    rw [scanPollLoop]
    have hf : (visible t).find? (fun p => p.address == address) = none := by
      rw [List.find?_eq_none]
      intro x hx hbeq
      exact hall t x hx (eq_of_beq hbeq)
    rw [hf]
    exact ih (t + 1)

/-- Characterization of a successful poll: the loop returns the result of
`find?` at the first poll index with a match, having slept exactly one time
unit per poll. -/
theorem scanPollLoop_spec (visible : Nat → List Peripheral)
    (address : BDAddr) :
    ∀ fuel t tp p, scanPollLoop visible address t fuel = some (tp, p) →
      ∃ j, j < fuel ∧ tp = t + j + 1 ∧
        (visible (t + j)).find? (fun q => q.address == address) = some p ∧
        ∀ u, t ≤ u → u < t + j →
          (visible u).find? (fun q => q.address == address) = none := by
  intro fuel
  induction fuel with
  | zero => intro t tp p h; simp [scanPollLoop] at h
  | succ n ih =>
    intro t tp p h
    rw [scanPollLoop] at h
    rcases hf : (visible t).find? (fun q => q.address == address) with _ | q
    · rw [hf] at h
      obtain ⟨j, hj1, hj2, hj3, hj4⟩ := ih (t + 1) tp p h
      refine ⟨j + 1, by omega, by omega, ?_, ?_⟩
      · have he : t + 1 + j = t + (j + 1) := by omega
        rw [← he]
        exact hj3
      · intro u hu1 hu2
        rcases Nat.eq_or_lt_of_le hu1 with he | hlt
        · rw [← he]
          exact hf
        · exact hj4 u (by omega) (by omega)
    · rw [hf] at h
      simp only [Option.some.injEq, Prod.mk.injEq] at h
      refine ⟨0, by omega, by omega, ?_, ?_⟩
      · rw [Nat.add_zero, hf, h.2]
      · intro u hu1 hu2
        omega

/-! ## C9: scan_for_peripheral polls indefinitely and matches the address -/

/-- C9: `scan_for_peripheral` never gives up on its own — as long as no
visible peripheral carries the requested address it is still polling,
whatever fuel it is given; and whenever it does return, the returned
peripheral's address equals the requested one, scanning has been stopped
before the return, and the result is the `find?` hit of the first matching
poll, one poll per elapsed time unit. -/
theorem C9_scan_for_peripheral_spec (visible : Nat → List Peripheral)
    (address : BDAddr) (fuel : Nat) :
    ((∀ u p, p ∈ visible u → p.address ≠ address) →
      scan_for_peripheral visible address fuel = none) ∧
      ∀ o, scan_for_peripheral visible address fuel = some o →
        o.found.address = address ∧ o.scanningAtReturn = false ∧
        ∃ t, t < fuel ∧ o.polls = t + 1 ∧
          (visible t).find? (fun q => q.address == address) = some o.found ∧
          ∀ u, u < t →
            (visible u).find? (fun q => q.address == address) = none := by
  constructor
  · intro hall
    unfold scan_for_peripheral
    rw [scanPollLoop_none visible address hall fuel 0]
  · intro o ho
    unfold scan_for_peripheral at ho
    rcases hl : scanPollLoop visible address 0 fuel with _ | tp
    · rw [hl] at ho; cases ho
    · rw [hl] at ho
      have haddr := scanPollLoop_some_address visible address fuel 0 tp.1 tp.2
        (by rw [hl])
      obtain ⟨j, hj1, hj2, hj3, hj4⟩ :=
        scanPollLoop_spec visible address fuel 0 tp.1 tp.2 (by rw [hl])
      have hfound : o.found = tp.2 := by cases ho; rfl
      have hpolls : o.polls = tp.1 := by cases ho; rfl
      have hscan : o.scanningAtReturn = false := by cases ho; rfl
      refine ⟨by rw [hfound]; exact haddr, hscan, j, hj1, by omega, ?_, ?_⟩
      · rw [hfound]
        have he : (0 : Nat) + j = j := by omega
        rw [← he]
        exact hj3
      · intro u hu
        exact hj4 u (Nat.zero_le u) (by omega)

/-- C9 witness: with no peripheral ever visible the scan is still polling
after 5 units of fuel; with `goodPeripheral` visible the scan returns it at
the first poll, address matching and scanning stopped. -/
theorem C9_scan_for_peripheral_spec_witness :
    scan_for_peripheral (fun _ => ([] : List Peripheral)) 7 5 = none ∧
      ({ polls := 1, found := goodPeripheral,
         scanningAtReturn := false } : ScanOutcome).found.address = 7 :=
  ⟨(C9_scan_for_peripheral_spec (fun _ => []) 7 5).1
      (fun u p hp => by simp at hp),
   ((C9_scan_for_peripheral_spec (fun _ => [goodPeripheral]) 7 1).2
      ⟨1, goodPeripheral, false⟩ rfl).1⟩

/-- The selection menu lists `"[Scan again]"` and then, per peripheral, its
display name or the `"(Empty)"` placeholder. -/
theorem selection_items_eq (peripherals : List Peripheral) :
    peripheral_selection_items peripherals =
      "[Scan again]" :: peripherals.map (fun p =>
        if p.propsErr || p.propsNone then "(Empty)"
        else p.localName.getD "(Empty)") := by
  unfold peripheral_selection_items get_peripheral_local_names
  congr 1
  induction peripherals with
  | nil => rfl
  | cons p ps ih =>
    simp only [List.map, List.cons.injEq]
    refine ⟨?_, ih⟩
    cases hc : (p.propsErr || p.propsNone) <;> simp [hc]

/-! ## C8: interactive selection loop -/

/-- C8: in each iteration of the interactive selector, an empty scan result
loops (rescans); choosing the `"[Scan again]"` entry (index 0) loops;
choosing entry `k ≥ 1` within range returns the `(k-1)`-th discovered
peripheral; an out-of-range selection loops; the menu shown is
`"[Scan again]"` followed by one entry per peripheral, its display name or
`"(Empty)"`; and a looping iteration makes the full loop continue with the
next scan instead of returning an error. -/
theorem C8_interactive_selection (peripherals : List Peripheral)
    (scans : Nat → List Peripheral) (selections : Nat → Nat) (i fuel : Nat) :
    interactiveScanStep [] (selections i) = none ∧
      interactiveScanStep peripherals 0 = none ∧
      (∀ k, 1 ≤ k → ∀ h : k - 1 < peripherals.length,
        interactiveScanStep peripherals k =
          some (peripherals.get ⟨k - 1, h⟩)) ∧
      (∀ k, 1 ≤ k → peripherals.length < k →
        interactiveScanStep peripherals k = none) ∧
      peripheral_selection_items peripherals =
        "[Scan again]" :: peripherals.map (fun p =>
          if p.propsErr || p.propsNone then "(Empty)"
          else p.localName.getD "(Empty)") ∧
      (interactiveScanStep (scans i) (selections i) = none →
        interactive_peripheral_scan scans selections i (fuel + 1) =
          interactive_peripheral_scan scans selections (i + 1) fuel) := by
  refine ⟨rfl, ?_, ?_, ?_, selection_items_eq peripherals, ?_⟩
  · cases peripherals <;> rfl
  · intro k h1 h
    cases peripherals with
    | nil => simp at h
    | cons p ps =>
      cases k with
      | zero => omega
      | succ k0 => exact List.get?_eq_get h
  · intro k h1 h2
    cases peripherals with
    | nil => rfl
    | cons p ps =>
      cases k with
      | zero => omega
      | succ k0 =>
        show (p :: ps).get? k0 = none
        rw [List.get?_eq_none]
        simp only [List.length_cons] at h2 ⊢
        omega
  · intro h
    rw [interactive_peripheral_scan, h]

/-- C8 witness: at a singleton scan result, choosing entry 1 returns the
peripheral; an empty scan result loops. -/
theorem C8_interactive_selection_witness :
    interactiveScanStep [goodPeripheral] 1 = some goodPeripheral ∧
      interactiveScanStep ([] : List Peripheral) 3 = none := by
  have h := C8_interactive_selection [goodPeripheral] (fun _ => []) (fun _ => 3)
    0 0
  exact ⟨h.2.2.1 1 (by omega) (by decide), h.1⟩

/-! ## C10: unparseable peripheral addresses fall back to interactive mode -/

/-- C10: when the caller-supplied address string parses in neither the
delimited nor the undelimited form, `main` resolves no address at all
(`and_then` with both results failing yields `None` — never a fatal error),
so `connect_to_peripheral` is invoked exactly as with no supplied address
and resolves its target through the interactive selector, not through the
address-directed scan. -/
theorem C10_unparseable_address_interactive (a : AdapterModel) (s : String)
    (fd fn : String → Except String BDAddr) (e1 e2 : String) (fuel : Nat)
    (h1 : fd s = .error e1) (h2 : fn s = .error e2) :
    maybe_peripheral_address (some s) fd fn = none ∧
      connect_to_peripheral a (maybe_peripheral_address (some s) fd fn) fuel =
        connect_to_peripheral a none fuel ∧
      selectPeripheral a none fuel =
        interactive_peripheral_scan a.scans a.selections 0 fuel := by
  have hm : maybe_peripheral_address (some s) fd fn = none := by
    simp [maybe_peripheral_address, exceptOr, h1, h2, Except.toOption]
  exact ⟨hm, by rw [hm], rfl⟩

/-- C10 witness: a concrete string both parsers reject resolves to no
address. -/
theorem C10_unparseable_address_interactive_witness :
    maybe_peripheral_address (some "not-an-address")
        (fun _ => .error "parse") (fun _ => .error "parse") = none :=
  (C10_unparseable_address_interactive emptyAdapter "not-an-address"
    (fun _ => .error "parse") (fun _ => .error "parse") "parse" "parse" 0
    rfl rfl).1

end VrcSaNode
